import Mathlib

/-!
Verification development for the 3P Agent Identity demo repository
(`sidecar/weather-api/app.py`, `sidecar/llm-agent/app.py`,
`sidecar/llm-agent-aws/app.py`).

The Python sources are shallowly embedded below.  Conventions:

* Python strings are modelled as Lean `String` (a wrapper around
  `List Char`); character classes (`\s`, `\w`, `[A-Za-z]`, `str.lower`)
  are modelled over the ASCII range, which covers every string the
  programs manipulate and every input used in the theorems.
* `json.loads` is modelled by an explicit parameter
  `parse : List Nat → Option JVal` (bytes to a JSON value, `none` on a
  parse error); theorems quantify over it.
* Network calls (`requests.get` plus `.json()`) are modelled by
  `Except String …` oracle values: `.error e` is any raised exception,
  `.ok v` a successful decoded body.
* `time.time()` values are modelled as integers; `time.sleep(d)` as the
  woken-up timestamp `last + RATE_LIMIT`.
-/

namespace AgentIdDemo

/-! ### ASCII character classes (Python `\s`, `\w`, `[A-Za-z]`, `str.lower`) -/

/-- Python `\s` over ASCII: space, tab, newline, carriage return,
vertical tab, form feed. -/
def isSpaceChar (c : Char) : Bool :=
  c.toNat = 32 || c.toNat = 9 || c.toNat = 10 || c.toNat = 13 ||
  c.toNat = 11 || c.toNat = 12

/-- `[A-Za-z]`. -/
def isAsciiAlpha (c : Char) : Bool :=
  (65 ≤ c.toNat && c.toNat ≤ 90) || (97 ≤ c.toNat && c.toNat ≤ 122)

/-- Python `\w` over ASCII: letters, digits, underscore. -/
def isWordChar (c : Char) : Bool :=
  isAsciiAlpha c || (48 ≤ c.toNat && c.toNat ≤ 57) || c.toNat = 95

/-- ASCII `str.lower` on one character. -/
def lcChar (c : Char) : Char :=
  if 65 ≤ c.toNat && c.toNat ≤ 90 then Char.ofNat (c.toNat + 32) else c

/-! ### List-level string primitives shared by the embeddings -/

/-- `l₂` starts with `l₁` (Python `str.startswith` on the underlying text). -/
def hasPfx : List Char → List Char → Bool
  | [], _ => true
  | _ :: _, [] => false
  | p :: ps, c :: cs => p == c && hasPfx ps cs

/-- Python `pat in s` (substring containment). -/
def containsSub (pat : List Char) : List Char → Bool
  | [] => hasPfx pat []
  | c :: rest => hasPfx pat (c :: rest) || containsSub pat rest

/-- Python `str.strip()` (whitespace from both ends). -/
def stripWs (l : List Char) : List Char :=
  ((l.dropWhile isSpaceChar).reverse.dropWhile isSpaceChar).reverse

/-- Python `str.rstrip(c)` for a single character. -/
def rstripCh (c : Char) (l : List Char) : List Char :=
  (l.reverse.dropWhile (· == c)).reverse

/-- Worker for `splitWs`; accumulates the current token reversed. -/
def splitWsGo : List Char → List Char → List (List Char)
  | [], cur => if cur.isEmpty then [] else [cur.reverse]
  | c :: rest, cur =>
    if isSpaceChar c then
      if cur.isEmpty then splitWsGo rest [] else cur.reverse :: splitWsGo rest []
    else splitWsGo rest (c :: cur)

/-- Python `str.split()` with no argument: split on whitespace runs,
dropping empty tokens. -/
def splitWs (l : List Char) : List (List Char) := splitWsGo l []

/-- Worker for `splitSep`.  The `skip` counter consumes the tail of a
separator that was already matched, keeping the recursion structural. -/
def splitSepGo (sep : List Char) : Nat → List Char → List Char → List (List Char)
  | _ + 1, cur, [] => [cur.reverse]
  | k + 1, cur, _ :: rest => splitSepGo sep k cur rest
  | 0, cur, [] => [cur.reverse]
  | 0, cur, c :: rest =>
    if 1 ≤ sep.length && hasPfx sep (c :: rest) then
      cur.reverse :: splitSepGo sep (sep.length - 1) [] rest
    else splitSepGo sep 0 (c :: cur) rest

/-- Python `str.split(sep)`: split on non-overlapping leftmost
occurrences of a non-empty separator. -/
def splitSep (sep l : List Char) : List (List Char) := splitSepGo sep 0 [] l

/-- Worker for `pyReplace`, same `skip` technique as `splitSepGo`. -/
def replGo (pat rep : List Char) : Nat → List Char → List Char
  | _ + 1, [] => []
  | k + 1, _ :: rest => replGo pat rep k rest
  | 0, [] => []
  | 0, c :: rest =>
    if 1 ≤ pat.length && hasPfx pat (c :: rest) then
      rep ++ replGo pat rep (pat.length - 1) rest
    else c :: replGo pat rep 0 rest

/-- Python `s.replace(pat, rep)`: replace every non-overlapping leftmost
occurrence, scanning once left to right. -/
def pyReplace (s pat rep : String) : String :=
  String.mk (replGo pat.data rep.data 0 s.data)

/-- Python `str.capitalize()` (ASCII): first character upper-cased, the
rest lower-cased. -/
def pyCapitalize (s : String) : String :=
  match s.data with
  | [] => ""
  | c :: rest =>
    String.mk ((if 97 ≤ c.toNat && c.toNat ≤ 122 then Char.ofNat (c.toNat - 32) else c)
      :: rest.map lcChar)

/-- Python `str.lower()` (ASCII). -/
def pyLower (s : String) : String := String.mk (s.data.map lcChar)

/-! ### The deterministic city extractor (`process_without_llm`,
`sidecar/llm-agent/app.py` lines 296-326 and the identical
`sidecar/llm-agent-aws/app.py` lines 356-387). -/

/-- `user_query.strip().rstrip(\x27?\x27).rstrip(\x27.\x27)` — the query
cleaning step shared by the extractor and the AWS fallback extractor. -/
def cleanQueryL (l : List Char) : List Char :=
  rstripCh '.' (rstripCh '?' (stripWs l))

/-- Word-boundary test for the position after `prev` (`\b` of the regex,
where the next character is a word character). -/
def boundaryOk : Option Char → Bool
  | none => true
  | some p => !isWordChar p

/-- Case-insensitive match of the keyword against the start of the list,
returning the remainder. -/
def stripKwCI : List Char → List Char → Option (List Char)
  | [], l => some l
  | _ :: _, [] => none
  | k :: ks, c :: cs => if lcChar c == k then stripKwCI ks cs else none

/-- The regex group `[A-Za-z][A-Za-z\s]*?` anchored by `$`: the suffix
must start with a letter and consist of letters and whitespace. -/
def suffixGroupOk : List Char → Bool
  | [] => false
  | c :: rest => isAsciiAlpha c && rest.all (fun d => isAsciiAlpha d || isSpaceChar d)

/-- After the keyword: `\s+` (at least one whitespace, consumed
greedily) followed by the anchored group. -/
def groupAfterWs : List Char → Option (List Char)
  | [] => none
  | c :: rest =>
    if isSpaceChar c then
      if suffixGroupOk (List.dropWhile isSpaceChar rest) then
        some (List.dropWhile isSpaceChar rest)
      else none
    else none

/-- `re.search(r"\b<kw>\s+([A-Za-z][A-Za-z\s]*?)$", l, re.IGNORECASE)`:
scan left to right for the first position where the whole pattern
matches, returning the group. -/
def kwSearch (kw : List Char) : Option Char → List Char → Option (List Char)
  | _, [] => none
  | prev, c :: rest =>
    match
      (if boundaryOk prev then
        match stripKwCI kw (c :: rest) with
        | some after => groupAfterWs after
        | none => none
      else none) with
    | some g => some g
    | none => kwSearch kw (some c) rest

/-- Keyword of pattern 1, `\bin\s+…`. -/
def kwIn : List Char := ['i', 'n']

/-- Keyword of pattern 2, `\bfor\s+…`. -/
def kwFor : List Char := ['f', 'o', 'r']

/-- `match.group(1).strip()`. -/
def stripStr (g : List Char) : String := String.mk (stripWs g)

/-- The stop-word set of pattern 3 (`common_words` in the source). -/
def commonWords : List (List Char) :=
  ["weather", "what", "is", "the", "how", "today", "now", "like"].map String.data

/-- Pattern 3: the last whitespace-delimited token, rejected when its
lower-casing is a stop word. -/
def lastWordCand (l : List Char) : Option String :=
  match (splitWs l).getLast? with
  | none => none
  | some w => if commonWords.contains (w.map lcChar) then none else some (String.mk w)

/-- Python falsiness of the `city` variable (`None` or the empty string). -/
def falsyStr : Option String → Bool
  | none => true
  | some s => s.data.isEmpty

/-- The deterministic city extractor, mirroring the mutable
`city` variable of `process_without_llm`: pattern 1 (`in <city>$`),
pattern 2 (`for <city>$`) tried only when `city` is falsy, pattern 3
(last word not a stop word) likewise, and the `"Seattle"` default. -/
def extractCity (q : String) : String :=
  let cq := cleanQueryL q.data
  let c1 : Option String := (kwSearch kwIn none cq).map stripStr
  let c2 : Option String :=
    if falsyStr c1 then
      match kwSearch kwFor none cq with
      | some g => some (stripStr g)
      | none => c1
    else c1
  let c3 : Option String :=
    if falsyStr c2 then
      match lastWordCand cq with
      | some w => some w
      | none => c2
    else c2
  match c3 with
  | some s => if s.data.isEmpty then "Seattle" else s
  | none => "Seattle"

/-- The extractor as the specification states it: an ordered fallback
chain where the first successful strategy wins.  Compared against
`extractCity` in the C6 theorem. -/
def extractCitySpec (q : String) : String :=
  let cq := cleanQueryL q.data
  match kwSearch kwIn none cq with
  | some g => stripStr g
  | none =>
    match kwSearch kwFor none cq with
    | some g => stripStr g
    | none =>
      match lastWordCand cq with
      | some w => w
      | none => "Seattle"

/-! ### JSON values and base64url decoding -/

/-- JSON values, the result type of the modelled `json.loads`. -/
inductive JVal where
  | null : JVal
  | bool : Bool → JVal
  | num : Int → JVal
  | str : String → JVal
  | arr : List JVal → JVal
  | obj : List (String × JVal) → JVal

/-- Python truthiness of a JSON value (`if claims:` etc.). -/
def pyTruthy : JVal → Bool
  | .null => false
  | .bool b => b
  | .num n => n != 0
  | .str s => !s.data.isEmpty
  | .arr l => !l.isEmpty
  | .obj l => !l.isEmpty

/-- `dict.get(k, d)` on a decoded JSON object. -/
def jGet (o : List (String × JVal)) (k : String) (d : JVal) : JVal :=
  match o.find? (fun kv => kv.1 == k) with
  | some kv => kv.2
  | none => d

/-- Python `value == "FederatedAgent"`: true exactly when the JSON value
is that string (comparisons across types are `False` in Python). -/
def isFedStr (v : JVal) : Bool :=
  match v with
  | .str s => s == "FederatedAgent"
  | _ => false

/-- Value of one base64 alphabet character (after the urlsafe
translation), `none` for characters outside the alphabet. -/
def b64Val (c : Char) : Option Nat :=
  if 65 ≤ c.toNat && c.toNat ≤ 90 then some (c.toNat - 65)
  else if 97 ≤ c.toNat && c.toNat ≤ 122 then some (c.toNat - 97 + 26)
  else if 48 ≤ c.toNat && c.toNat ≤ 57 then some (c.toNat - 48 + 52)
  else if c == '+' then some 62
  else if c == '/' then some 63
  else none

/-- The `urlsafe_b64decode` character translation `-` → `+`, `_` → `/`. -/
def urlsafeChar (c : Char) : Char :=
  if c == '-' then '+' else if c == '_' then '/' else c

/-- One pass of CPython `binascii.a2b_base64` in non-strict mode
(3.11 `binascii.c`): characters outside the alphabet are skipped (and
leave the pad counter alone); a `=` when the quad position is at least
2 increments the pad counter and ends the data once position plus pads
reaches 4 (`=` at position 3, or `==` at position 2, possibly with
skipped characters in between); a `=` at position 0 or 1 is ignored;
each data character resets the pad counter; bytes are emitted eagerly;
a final partial quad is an error (`Incorrect padding`, or `number of
data characters cannot be 1 more than a multiple of 4`).  `qp` is the
position inside the current quad, `buf` the pending bits, `pads` the
padding counter. -/
def b64Go : List Char → Nat → Nat → Nat → List Nat → Option (List Nat)
  | [], qp, _, _, acc => if qp = 0 then some acc.reverse else none
  | c :: rest, qp, buf, pads, acc =>
    if c == '=' then
      if 2 ≤ qp then
        if 4 ≤ qp + (pads + 1) then some acc.reverse
        else b64Go rest qp buf (pads + 1) acc
      else b64Go rest qp buf pads acc
    else
      match b64Val (urlsafeChar c) with
      | none => b64Go rest qp buf pads acc
      | some v =>
        match qp with
        | 0 => b64Go rest 1 v 0 acc
        | 1 => b64Go rest 2 ((buf * 64 + v) % 16) 0 ((buf * 64 + v) / 16 :: acc)
        | 2 => b64Go rest 3 ((buf * 64 + v) % 4) 0 ((buf * 64 + v) / 4 :: acc)
        | _ => b64Go rest 0 0 0 ((buf * 64 + v) :: acc)

/-- The padding restoration used both by `decode_jwt_payload`
(`padding = 4 - len(payload) % 4; if padding != 4: payload += "=" * padding`)
and by PyJWT's `base64url_decode`. -/
def padB64 (l : List Char) : List Char :=
  let p := 4 - l.length % 4
  if p ≠ 4 then l ++ List.replicate p '=' else l

/-- `base64.urlsafe_b64decode` after padding restoration, `none` on a
`binascii.Error`. -/
def b64urlDecode (l : List Char) : Option (List Nat) := b64Go (padB64 l) 0 0 0 []

/-! ### The Claims Decoder (`decode_jwt_payload`,
`sidecar/llm-agent/app.py` lines 77-92 and the identical
`sidecar/llm-agent-aws/app.py` lines 67-82). -/

/-- `if token.startswith("Bearer "): token = token[7:]`. -/
def dropBearer (t : List Char) : List Char :=
  if hasPfx "Bearer ".data t then t.drop 7 else t

/-- `decode_jwt_payload(token)`: strip an optional `Bearer ` prefix,
split on `.`, require exactly three segments, base64url-decode the
second after restoring padding, parse the bytes as JSON; `none` on any
failure (the `except Exception: return None`). -/
def decode_jwt_payload (parse : List Nat → Option JVal) (token : String) : Option JVal :=
  match splitSep ['.'] (dropBearer token.data) with
  | [_h, p, _s] =>
    match b64urlDecode p with
    | some bytes => parse bytes
    | none => none
  | _ => none

/-! ### The Resource Validator (`validate_token` and the `/weather`
route, `sidecar/weather-api/app.py` lines 119-215).

`jwt.decode(token, options={"verify_signature": False})` is modelled
faithfully to PyJWT with signature verification disabled
(`api_jws._load` plus `api_jwt._decode_payload`): the signature segment
is everything after the *last* dot (`rsplit(".", 1)`), the header
everything before the *first* dot (`split(".", 1)`), the payload
everything in between — so tokens with more than two dots are still
loadable, their payload's interior dots being skipped by the non-strict
base64 decoder.  The header is base64url-decoded and must parse as a
JSON object, then the payload and signature segments are
base64url-decoded, then the payload must parse as a JSON object.  All
claim verifications are off. -/

/-- Python `s.split(sep, 1)` destructured into two parts, `none` when
the separator does not occur (the `ValueError` of unpacking). -/
def pySplitOnce (c : Char) : List Char → Option (List Char × List Char)
  | [] => none
  | x :: rest =>
    if x == c then some ([], rest)
    else
      match pySplitOnce c rest with
      | some (a, b) => some (x :: a, b)
      | none => none

/-- Python `s.rsplit(sep, 1)` destructured into two parts, `none` when
the separator does not occur. -/
def pyRsplitOnce (c : Char) (l : List Char) : Option (List Char × List Char) :=
  match pySplitOnce c l.reverse with
  | some (a, b) => some (b.reverse, a.reverse)
  | none => none

/-- PyJWT `jwt.decode` without signature verification. -/
def pyJwtDecode (parse : List Nat → Option JVal) (token : String) :
    Except String (List (String × JVal)) :=
  match pyRsplitOnce '.' token.data with
  | none => .error "Not enough segments"
  | some (signingInput, cryptoSegment) =>
    match pySplitOnce '.' signingInput with
    | none => .error "Not enough segments"
    | some (headerSegment, payloadSegment) =>
      match b64urlDecode headerSegment with
      | none => .error "Invalid header padding"
      | some hb =>
        match parse hb with
        | none => .error "Invalid header string"
        | some (.obj _) =>
          match b64urlDecode payloadSegment with
          | none => .error "Invalid payload padding"
          | some pb =>
            match b64urlDecode cryptoSegment with
            | none => .error "Invalid crypto padding"
            | some _ =>
              match parse pb with
              | none => .error "Invalid payload string"
              | some (.obj claims) => .ok claims
              | some _ => .error "Invalid payload string: must be a json object"
        | some _ => .error "Invalid header string: must be a json object"

/-- The `request.token_claims` context attached on acceptance
(lines 148-154 of `weather-api/app.py`). -/
structure TokenClaimsCtx where
  appid : JVal
  aud : JVal
  roles : JVal
  xms_frd : JVal
  is_agent_identity : Bool

/-- Outcome of the `validate_token` decorator: a 401 rejection (error
and message fields of the JSON body) or acceptance with the claims
context. -/
inductive ValidateResult where
  | reject : String → String → ValidateResult
  | accept : TokenClaimsCtx → ValidateResult

/-- Builds `request.token_claims` from the decoded claim object. -/
def mkTokenCtx (claims : List (String × JVal)) : TokenClaimsCtx :=
  let x := jGet claims "xms_frd" (.str "")
  { appid := jGet claims "appid" (.str "unknown")
    aud := jGet claims "aud" (.str "unknown")
    roles := jGet claims "roles" (.arr [])
    xms_frd := x
    is_agent_identity := isFedStr x }

/-- `token = auth_header.replace("Bearer ", "")` — the token string the
validator actually decodes (a global replace, not a prefix strip). -/
def extractBearerToken (h : String) : String := pyReplace h "Bearer " ""

/-- The `validate_token` decorator.  `authHeader` is
`request.headers.get("Authorization", "")`, so a missing header is the
empty string.  Rejection messages are paraphrased without punctuation
that carries no information (the source texts are
`Please provide a valid Agent Identity token` and
`Use Bearer token format`). -/
def validate_token (parse : List Nat → Option JVal) (authHeader : String) : ValidateResult :=
  if authHeader.data.isEmpty then
    .reject "Missing Authorization header" "Please provide a valid Agent Identity token"
  else if !hasPfx "Bearer ".data authHeader.data then
    .reject "Invalid Authorization format" "Use Bearer token format"
  else
    match pyJwtDecode parse (extractBearerToken authHeader) with
    | .error m => .reject "Invalid token format" m
    | .ok claims => .accept (mkTokenCtx claims)

/-- The protected `/weather` route: the business logic (an oracle,
since it performs network weather lookups) runs only when the validator
accepts, receiving the attached claims context; a rejection returns the
401 with the error field. -/
def weatherRoute (parse : List Nat → Option JVal)
    (business : TokenClaimsCtx → Nat × String) (authHeader : String) : Nat × String :=
  match validate_token parse authHeader with
  | .reject e _m => (401, e)
  | .accept ctx => business ctx

/-! ### Trace recorder and configuration

`log_debug` entries carry a step label, a message and an optional data
payload; the payload is omitted from the model (no claim observes it).
Configuration environment variables are modelled at their defaults. -/

/-- One `debug_logs` entry (`log_debug(step, message, data)`, data
payload omitted). -/
structure DebugEntry where
  step : String
  message : String
deriving DecidableEq

def SIDECAR_URL : String := "http://sidecar:5000"

def WEATHER_API_URL : String := "http://weather-api:8080"

def AGENT_APP_ID : String := ""

def BEDROCK_MODEL_ID : String := "anthropic.claude-3-sonnet-20240229-v1:0"

/-- The minimum spacing between decision-backend calls
(`BEDROCK_RATE_LIMIT_SECONDS`). -/
def BEDROCK_RATE_LIMIT : Int := 20

/-! ### The Token Broker Client (`get_agent_token`,
`sidecar/llm-agent-aws/app.py` lines 85-118; `sidecar/llm-agent/app.py`
lines 95-128 is identical apart from the step labels). -/

/-- `result.get("authorizationHeader", "")` — the broker body is a JSON
object whose relevant field is a string (`{"authorizationHeader": "<token>"}`
per the broker interface); modelled as a string-valued association list. -/
def brokerField (body : List (String × String)) : String :=
  match body.find? (fun kv => kv.1 == "authorizationHeader") with
  | some kv => kv.2
  | none => ""

/-- The display-claims dictionary is built with `claims.get(...)`; on a
truthy non-object decode result this raises `AttributeError` inside the
`try`, which the `except Exception` below turns into `return None`.
`displaySafe` is true exactly when that exception cannot happen. -/
def displaySafe (parse : List Nat → Option JVal) (token : String) : Bool :=
  match decode_jwt_payload parse token with
  | none => true
  | some v =>
    if pyTruthy v then
      match v with
      | .obj _ => true
      | _ => false
    else true

/-- `get_agent_token()`: fetch a token from the sidecar broker, decode
its claims purely for trace display, and return the
`authorizationHeader` field; `None` on any exception.  `resp` is the
oracle for `requests.get` + `raise_for_status` + `.json()`. -/
def get_agent_token (parse : List Nat → Option JVal)
    (resp : Except String (List (String × String))) : List DebugEntry × Option String :=
  let l0 : List DebugEntry :=
    [⟨"2.A TOKEN REQUEST", "Requesting token for Agent: " ++ AGENT_APP_ID⟩,
     ⟨"2.B REQUEST URL",
      "Sidecar URL: " ++ SIDECAR_URL ++ "/AuthorizationHeaderUnauthenticated/graph?AgentIdentity="
        ++ AGENT_APP_ID⟩]
  match resp with
  | .error e => (l0 ++ [⟨"2. TOKEN ERROR", "Failed to get token: " ++ e⟩], none)
  | .ok body =>
    let ah := brokerField body
    if ah.data.isEmpty then (l0, some ah)
    else
      match decode_jwt_payload parse ah with
      | none => (l0, some ah)
      | some v =>
        if pyTruthy v then
          match v with
          | .obj _ =>
            (l0 ++ [⟨"2.C TOKEN RECEIVED", "Got Agent Identity token from sidecar"⟩], some ah)
          | _ =>
            (l0 ++ [⟨"2. TOKEN ERROR", "Failed to get token: AttributeError"⟩], none)
        else (l0, some ah)

/-! ### The Resource Invoker and the weather tool
(`call_weather_api` and `get_weather_data`,
`sidecar/llm-agent-aws/app.py` lines 121-175). -/

/-- Environment oracles of one AWS-agent request: the outcome of
creating the Bedrock agent, of `agent.invoke`, of the broker call, of
the weather-API call, and the JSON parser. -/
structure BedrockEnv where
  createResult : Except String Unit
  invokeResult : Except String (List (String × List (Option String)))
  broker : Except String (List (String × String))
  weatherResp : Except String JVal
  parse : List Nat → Option JVal

/-- `invokeResult` messages: each message is its `content` together
with the `city` argument of each of its `tool_calls`
(`tool_call.get("args", {}).get("city", "unknown")` supplies the
default for a missing argument). -/
def msgContent (m : String × List (Option String)) : String := m.1

def msgToolCalls (m : String × List (Option String)) : List (Option String) := m.2

/-- Python `str()` of a JSON value as interpolated into the result
f-string; container renderings are abbreviated (no claim observes
them). -/
def jShow : JVal → String
  | .null => "None"
  | .bool true => "True"
  | .bool false => "False"
  | .num n => toString n
  | .str s => s
  | .arr _ => "[...]"
  | .obj _ => "{...}"

/-- `weather.get(k, d)` rendered into the f-string. -/
def jField (o : List (String × JVal)) (k d : String) : String :=
  match o.find? (fun kv => kv.1 == k) with
  | some kv => jShow kv.2
  | none => d

/-- The tool result f-string of `get_weather_data` (step 3). -/
def formatWeather (city : String) (o : List (String × JVal)) : String :=
  "Weather for " ++ jField o "city" city ++ ":\n- Temperature: "
    ++ jField o "temperature" "N/A" ++ "°" ++ jField o "temperature_unit" "F"
    ++ "\n- Condition: " ++ jField o "condition" "N/A"
    ++ "\n- Humidity: " ++ jField o "humidity" "N/A" ++ "%"
    ++ "\n- Wind Speed: " ++ jField o "wind_speed" "N/A" ++ " " ++ jField o "wind_unit" "mph"
    ++ "\n- Timestamp: " ++ jField o "timestamp" "N/A" ++ " (" ++ jField o "timezone" "UTC" ++ ")"
    ++ "\n- Data Source: " ++ jField o "data_source" "Weather API"
    ++ "\n- Authentication: Validated by " ++ jField o "validated_by" "Agent Identity Token"
    ++ "\n- Agent App ID: " ++ jField o "agent_app_id" "N/A"

/-- `call_weather_api(city, token)`: GET the weather API, returning the
decoded JSON body or `None` on any exception. -/
def call_weather_api (env : BedrockEnv) (city : String) : List DebugEntry × Option JVal :=
  let l0 : List DebugEntry :=
    [⟨"3.A API CALL", "Calling Weather API for: " ++ city⟩,
     ⟨"3.B API URL", "URL: " ++ WEATHER_API_URL ++ "/weather?city=" ++ city⟩]
  match env.weatherResp with
  | .error e => (l0 ++ [⟨"3. WEATHER ERROR", "API call failed: " ++ e⟩], none)
  | .ok wd => (l0 ++ [⟨"3.C API RESPONSE", "Got weather data from API"⟩], some wd)

/-- `get_weather_data(city)`: token fetch, weather call, formatting.
The `Except` result is `.error` when the uncaught `AttributeError` of
`weather.get(...)` on a truthy non-object body propagates to the
caller, `.ok` with the returned string otherwise (error strings are
normal return values in the source). -/
def get_weather_data (env : BedrockEnv) (city : String) : List DebugEntry × Except String String :=
  let l0 : List DebugEntry := [⟨"1. TOOL CALLED", "Weather function called for city: " ++ city⟩]
  let t := get_agent_token env.parse env.broker
  match t.2 with
  | none =>
    (l0 ++ t.1,
     .ok "Error: Could not authenticate with Agent Identity. The sidecar may not be running.")
  | some tok =>
    if tok.data.isEmpty then
      (l0 ++ t.1,
       .ok "Error: Could not authenticate with Agent Identity. The sidecar may not be running.")
    else
      let w := call_weather_api env city
      match w.2 with
      | none =>
        (l0 ++ t.1 ++ w.1,
         .ok ("Error: Could not get weather data for " ++ city
           ++ ". The API may have rejected the token."))
      | some wv =>
        if pyTruthy wv then
          match wv with
          | .obj o =>
            (l0 ++ t.1 ++ w.1 ++ [⟨"4. TOOL RESULT", "Weather data retrieved"⟩],
             .ok (formatWeather city o))
          | _ => (l0 ++ t.1 ++ w.1, .error "AttributeError: object has no attribute get")
        else
          (l0 ++ t.1 ++ w.1,
           .ok ("Error: Could not get weather data for " ++ city
             ++ ". The API may have rejected the token."))

/-! ### The Invocation Dispatcher, decision-loop mode
(`process_with_langchain`, `sidecar/llm-agent-aws/app.py`
lines 236-348). -/

/-- The fixed keyword set of the fallback trigger
(`any(keyword in user_query.lower() for keyword in [...])`). -/
def kwMatch (q : String) : Bool :=
  ["weather", "temperature", "forecast", "condition"].any
    (fun k => containsSub k.data (q.data.map lcChar))

/-- The inline city extraction of the fallback block (lines 293-307):
substring splits on the lower-cased cleaned query, else the last word
when there are at least two words.  Returns the raw `city` variable
before the truthiness check. -/
def awsExtractRaw (q : String) : Option String :=
  let clean := cleanQueryL q.data
  let lc := clean.map lcChar
  let words := splitWs clean
  if containsSub " in ".data lc then
    some (String.mk (stripWs ((splitSep " in ".data lc).getLastD [])))
  else if containsSub " for ".data lc then
    some (String.mk (stripWs ((splitSep " for ".data lc).getLastD [])))
  else if 2 ≤ words.length then some (String.mk (words.getLastD []))
  else none

/-- The fallback city after the `if city:` truthiness check. -/
def awsCity (q : String) : Option String :=
  match awsExtractRaw q with
  | some s => if s.data.isEmpty then none else some s
  | none => none

/-- `tool_called`: some message of the loop carries tool calls. -/
def loopToolCalled (msgs : List (String × List (Option String))) : Bool :=
  msgs.any (fun m => !(msgToolCalls m).isEmpty)

/-- The city arguments of the tool calls executed during the loop, in
order; a missing `city` argument defaults to `"unknown"`. -/
def loopCities (msgs : List (String × List (Option String))) : List String :=
  msgs.flatMap (fun m => (msgToolCalls m).map (fun c => c.getD "unknown"))

/-- `result.get("messages", [])[-1].content if result.get("messages")
else "No response"`. -/
def lastContent (msgs : List (String × List (Option String))) : String :=
  match msgs.getLast? with
  | some m => msgContent m
  | none => "No response"

@[simp] def startEntry (q : String) : DebugEntry := ⟨"0. START", "User query: " ++ q⟩

@[simp] def bedrockEntry : DebugEntry :=
  ⟨"0. BEDROCK", "Sending query to AWS Bedrock (model: " ++ BEDROCK_MODEL_ID ++ ")"⟩

@[simp] def readyEntry : DebugEntry :=
  ⟨"0. AGENT READY", "LangChain agent created with AWS Bedrock (" ++ BEDROCK_MODEL_ID ++ ")"⟩

@[simp] def completeEntry : DebugEntry := ⟨"5. COMPLETE", "AWS Bedrock agent finished processing"⟩

/-- Source text: `LLM didn't call tool - manually extracting city and
calling weather tool` (apostrophe elided). -/
@[simp] def fallbackEntry : DebugEntry :=
  ⟨"1. FALLBACK", "LLM did not call tool - manually extracting city and calling weather tool"⟩

@[simp] def noToolEntry : DebugEntry :=
  ⟨"1. NO TOOL", "LLM responded without calling weather tool (may have used general knowledge)"⟩

@[simp] def errorEntry (e : String) : DebugEntry := ⟨"ERROR", "AWS Bedrock agent failed: " ++ e⟩

/-- The `"0. RATE LIMIT"` entry (`Waiting {wait:.1f} seconds...`;
the float rendering of the whole-second model value). -/
@[simp] def rateEntry (w : Int) : DebugEntry :=
  ⟨"0. RATE LIMIT", "Waiting " ++ toString w ++ ".0 seconds to avoid AWS throttling..."⟩

/-- Everything `process_with_langchain` computes after `clear_debug()`:
the rebuilt `debug_logs`, the response string, and whether the `try`
block ran to completion (the only path on which the rate-limit
timestamp is written). -/
structure PWLCore where
  logs : List DebugEntry
  response : String
  ok : Bool
deriving DecidableEq

/-- The body of `process_with_langchain` from `clear_debug()` onwards.
A failing `agent.invoke` is modelled as failing before any tool
execution, so it contributes no tool trace entries. -/
def pwlCore (env : BedrockEnv) (query : String) : PWLCore :=
  let base := [startEntry query, bedrockEntry]
  match env.createResult with
  | .error e => ⟨base ++ [errorEntry e], "Agent error: " ++ e, false⟩
  | .ok _ =>
    let ready := base ++ [readyEntry]
    match env.invokeResult with
    | .error e => ⟨ready ++ [errorEntry e], "Agent error: " ++ e, false⟩
    | .ok msgs =>
      let toolLogs := (loopCities msgs).flatMap (fun c => (get_weather_data env c).1)
      let afterInvoke := ready ++ toolLogs
      if loopToolCalled msgs then
        ⟨afterInvoke ++ [completeEntry], lastContent msgs, true⟩
      else if kwMatch query then
        let lf := afterInvoke ++ [fallbackEntry]
        match awsCity query with
        | some c0 =>
          let city := pyCapitalize c0
          let lc := lf ++ [⟨"2. CITY DETECTED", "Extracted city: " ++ city⟩]
          match get_weather_data env city with
          | (tl, .ok w) => ⟨lc ++ tl ++ [completeEntry], w, true⟩
          | (tl, .error e) => ⟨lc ++ tl ++ [errorEntry e], "Agent error: " ++ e, false⟩
        | none =>
          ⟨lf ++ [⟨"2. NO CITY", "Could not extract city from query"⟩, noToolEntry,
             completeEntry],
           lastContent msgs, true⟩
      else
        ⟨afterInvoke ++ [noToolEntry, completeEntry], lastContent msgs, true⟩

/-- Full result of one mediated request: the `debug_logs` value just
before `clear_debug()` (the rate-limit entry lands there and is then
discarded), the returned trace, response and success flag, the new
value of `last_bedrock_call_time`, and the time at which the backend
call is issued (after any rate-limit sleep). -/
structure PWLResult where
  preClear : List DebugEntry
  logs : List DebugEntry
  response : String
  success : Bool
  newLast : Int
  callStart : Int
deriving DecidableEq

/-- `process_with_langchain(user_query)`.  `initLogs` is the residual
`debug_logs` of the previous request, `last` the shared
`last_bedrock_call_time`, `now` the clock on entry and `fin` the clock
at the timestamp update (line 330, reached only when the `try` block
completes); on any exception the timestamp is left unchanged. -/
def process_with_langchain (env : BedrockEnv) (query : String)
    (initLogs : List DebugEntry) (last now fin : Int) : PWLResult :=
  let waiting := now - last < BEDROCK_RATE_LIMIT
  let core := pwlCore env query
  { preClear := if waiting then initLogs ++ [rateEntry (BEDROCK_RATE_LIMIT - (now - last))]
      else initLogs
    logs := core.logs
    response := core.response
    success := core.ok
    newLast := if core.ok then fin else last
    callStart := if waiting then last + BEDROCK_RATE_LIMIT else now }

/-! ### Health endpoints (`/health` of the three services). -/

/-- `AGENT_APP_ID[:8] + "..." if AGENT_APP_ID else "not set"`. -/
def truncAppId (appId : String) : String :=
  if appId.data.isEmpty then "not set" else String.mk (appId.data.take 8) ++ "..."

/-- `weather-api/app.py` lines 173-176: status and service only. -/
def healthWeatherApi : List (String × String) :=
  [("status", "healthy"), ("service", "Weather API")]

/-- `llm-agent/app.py` lines 403-410. -/
def healthLlmAgent (appId : String) : List (String × String) :=
  [("status", "healthy"), ("service", "LLM Weather Agent (LangChain)"),
   ("agent_app_id", truncAppId appId)]

/-- `llm-agent-aws/app.py` lines 466-473. -/
def healthLlmAgentAws (appId : String) : List (String × String) :=
  [("status", "healthy"), ("service", "LLM Weather Agent (AWS Bedrock)"),
   ("agent_app_id", truncAppId appId)]

/-- Key lookup in a JSON body. -/
def lookupField (body : List (String × String)) (k : String) : Option String :=
  (body.find? (fun kv => kv.1 == k)).map (fun kv => kv.2)

/-! ### Concrete oracles used by witnesses and counterexamples -/

/-- A `json.loads` oracle returning the empty JSON object for any bytes. -/
def parseObjStub : List Nat → Option JVal := fun _ => some (.obj [])

/-- A `json.loads` oracle that fails on any bytes. -/
def parseNone : List Nat → Option JVal := fun _ => none

/-- A `json.loads` oracle defined only on the bytes of the JSON text
`[1]` (which is what base64url `WzFd` decodes to), as `json.loads`
would parse them: a singleton array. -/
def parseArrStub : List Nat → Option JVal :=
  fun b => if b = [91, 49, 93] then some (.arr [.num 1]) else none

/-- A broker body carrying a well-formed three-segment token whose
payload segment is base64url for the JSON text `[1]`. -/
def brokerBodyArr : List (String × String) := [("authorizationHeader", "aaaa.WzFd.cccc")]

/-- A `json.loads` oracle for the C1 counterexample, defined exactly on
the bytes the four-segment token decodes to: the text `{}` for the
header and the text of an object with one empty-named numeric claim
for the payload (whose interior dot is skipped by the non-strict
base64 decoder). -/
def parseJwt4 : List Nat → Option JVal :=
  fun b =>
    if b = [123, 125] then some (.obj [])
    else if b = [123, 34, 34, 58, 49, 125] then some (.obj [("", .num 1)])
    else none

/-- A broker body carrying an opaque token. -/
def brokerBodyTok : List (String × String) := [("authorizationHeader", "tok")]

/-- Environment of a mediated request whose Bedrock invocation raises. -/
def envInvokeFails : BedrockEnv :=
  ⟨.ok (), .error "ThrottlingException", .error "down", .error "down", parseNone⟩

/-- Environment of a mediated request that completes with an empty
message list and never touches the tool chain. -/
def envEmptyLoop : BedrockEnv := ⟨.ok (), .ok [], .error "down", .error "down", parseNone⟩

/-- Environment where the loop answers `"LOOPANS"` without any tool
call; broker and weather oracles fail if ever consulted. -/
def envLoopNoTool : BedrockEnv :=
  ⟨.ok (), .ok [("LOOPANS", [])], .error "down", .error "down", parseNone⟩

/-- Environment for the C10 witness: agent creation raises. -/
def envCreateFails : BedrockEnv :=
  ⟨.error "NoCredentialsError", .error "unused", .error "down", .error "down", parseNone⟩

/-- Residual trace of a previous request, used by the C10 witness. -/
def staleLogs : List DebugEntry := [⟨"5. COMPLETE", "previous request"⟩]

/-- A concrete business-logic oracle for the C1 witness. -/
def bizStub : TokenClaimsCtx → Nat × String := fun _ => (200, "ok")

/-! ## Theorems

### Extractor lemmas -/

theorem alpha_not_space {c : Char} (h : isAsciiAlpha c = true) : isSpaceChar c = false := by
  simp only [isAsciiAlpha, Bool.or_eq_true, Bool.and_eq_true, decide_eq_true_eq] at h
  simp only [isSpaceChar, Bool.or_eq_false_iff, decide_eq_false_iff_not]
  omega

theorem groupAfterWs_suffixOk : ∀ {l g : List Char},
    groupAfterWs l = some g → suffixGroupOk g = true := by
  intro l g h
  match l with
  | [] => simp [groupAfterWs] at h
  | c :: rest =>
    simp only [groupAfterWs] at h
    split at h
    · split at h
      · rename_i hok
        cases h
        exact hok
      · exact absurd h (by simp)
    · exact absurd h (by simp)

theorem kwSearch_suffixOk (kw : List Char) :
    ∀ (l : List Char) (prev : Option Char) {g : List Char},
      kwSearch kw prev l = some g → suffixGroupOk g = true := by
  intro l
  induction l with
  | nil => intro prev g h; simp [kwSearch] at h
  | cons c rest ih =>
    intro prev g h
    simp only [kwSearch] at h
    split at h
    · rename_i g0 heq
      cases h
      split at heq
      · split at heq
        · exact groupAfterWs_suffixOk heq
        · exact absurd heq (by simp)
      · exact absurd heq (by simp)
    · rename_i heq
      exact ih (some c) h

theorem stripWs_ne_nil_of_suffixOk {g : List Char} (h : suffixGroupOk g = true) :
    stripWs g ≠ [] := by
  match g with
  | [] => simp [suffixGroupOk] at h
  | c :: rest =>
    simp only [suffixGroupOk, Bool.and_eq_true] at h
    have hns : isSpaceChar c = false := alpha_not_space h.1
    unfold stripWs
    rw [List.dropWhile_cons, hns]
    simp only [Bool.false_eq_true, if_false, List.reverse_eq_nil_iff, ne_eq,
      List.dropWhile_eq_nil_iff]
    intro hall
    have hc := hall c (by simp)
    rw [hns] at hc
    exact Bool.false_ne_true hc

theorem splitWsGo_ne_nil : ∀ (l cur : List Char), ∀ w ∈ splitWsGo l cur, w ≠ [] := by
  intro l
  induction l with
  | nil =>
    intro cur w hw
    unfold splitWsGo at hw
    split at hw
    · simp at hw
    · rename_i hcur
      simp only [List.mem_singleton] at hw
      subst hw
      simp only [ne_eq, List.reverse_eq_nil_iff]
      intro hnil
      rw [hnil] at hcur
      simp at hcur
  | cons c rest ih =>
    intro cur w hw
    unfold splitWsGo at hw
    split at hw
    · split at hw
      · exact ih [] w hw
      · rename_i hcur
        rcases List.mem_cons.mp hw with h | h
        · subst h
          simp only [ne_eq, List.reverse_eq_nil_iff]
          intro hnil
          rw [hnil] at hcur
          simp at hcur
        · exact ih [] w h
    · exact ih (c :: cur) w hw

theorem lastWordCand_data_ne_nil {l : List Char} {w : String}
    (h : lastWordCand l = some w) : w.data ≠ [] := by
  unfold lastWordCand at h
  split at h
  · exact absurd h (by simp)
  · rename_i tok htok
    split at h
    · exact absurd h (by simp)
    · cases h
      obtain ⟨ys, hys⟩ := List.getLast?_eq_some_iff.mp htok
      have hmem : tok ∈ splitWs l := by rw [hys]; simp
      exact splitWsGo_ne_nil l [] tok hmem

/-- The `extractCity` fallback chain agrees with the ordered
first-success-wins chain `extractCitySpec`. -/
theorem extractCity_eq_spec (q : String) : extractCity q = extractCitySpec q := by
  unfold extractCity extractCitySpec
  cases h1 : kwSearch kwIn none (cleanQueryL q.data) with
  | some g =>
    have hne : stripWs g ≠ [] := stripWs_ne_nil_of_suffixOk (kwSearch_suffixOk _ _ _ h1)
    simp [h1, falsyStr, stripStr, List.isEmpty_iff, hne]
  | none =>
    cases h2 : kwSearch kwFor none (cleanQueryL q.data) with
    | some g =>
      have hne : stripWs g ≠ [] := stripWs_ne_nil_of_suffixOk (kwSearch_suffixOk _ _ _ h2)
      simp [h1, h2, falsyStr, stripStr, List.isEmpty_iff, hne]
    | none =>
      cases h3 : lastWordCand (cleanQueryL q.data) with
      | some w =>
        have hne : w.data ≠ [] := lastWordCand_data_ne_nil h3
        simp [h1, h2, h3, falsyStr, List.isEmpty_iff, hne]
      | none => simp [h1, h2, h3, falsyStr]

/-- The extractor always produces a non-empty city string. -/
theorem extractCity_data_ne_nil (q : String) : (extractCity q).data ≠ [] := by
  rw [extractCity_eq_spec]
  unfold extractCitySpec
  cases h1 : kwSearch kwIn none (cleanQueryL q.data) with
  | some g =>
    have hne : stripWs g ≠ [] := stripWs_ne_nil_of_suffixOk (kwSearch_suffixOk _ _ _ h1)
    simpa [h1, stripStr] using hne
  | none =>
    cases h2 : kwSearch kwFor none (cleanQueryL q.data) with
    | some g =>
      have hne : stripWs g ≠ [] := stripWs_ne_nil_of_suffixOk (kwSearch_suffixOk _ _ _ h2)
      simpa [h1, h2, stripStr] using hne
    | none =>
      cases h3 : lastWordCand (cleanQueryL q.data) with
      | some w => simpa [h1, h2, h3] using lastWordCand_data_ne_nil h3
      | none => simp [h1, h2, h3]

/-! ### Claim C5 — extractor idempotence and totality -/

/-- C5 counterexample: the extractor is not idempotent on its output.
`extractCity "in now"` is `"now"` (pattern a), but re-running the
extractor on `"now"` yields the default `"Seattle"`, because `"now"` is
a stop word of pattern c. -/
theorem extractor_not_idempotent :
    extractCity (extractCity "in now") ≠ extractCity "in now" := by decide

/-- C5 amended: the deterministic city extractor is total and always
returns a non-empty string; idempotence on its output does not hold in
general. -/
theorem extractor_total (q : String) : extractCity q ≠ "" := by
  intro h
  exact extractCity_data_ne_nil q (by rw [h])

/-! ### Claim C6 — ordered fallback policy of the extractor -/

/-- C6: for every query the extractor strips trailing punctuation and
tries, in this exact priority order with the first success winning:
(a) `in <words>` at the end, (b) `for <words>` at the end, (c) the
final whitespace-delimited token unless it is a stop word, (d) the
default city (`extractCitySpec` is that ordered chain); in particular
`"What is the weather in Dallas?"` yields `"Dallas"` and the bare query
`"weather"` yields the default `"Seattle"`. -/
theorem extractor_ordered_fallback :
    (∀ q : String, extractCity q = extractCitySpec q) ∧
    extractCity "What is the weather in Dallas?" = "Dallas" ∧
    extractCity "weather" = "Seattle" :=
  ⟨extractCity_eq_spec, by decide, by decide⟩

/-! ### Replace-all lemmas and claim C9 -/

theorem hasPfx_append (p l : List Char) : hasPfx p (p ++ l) = true := by
  induction p with
  | nil => rfl
  | cons c cs ih => simp [hasPfx, ih]

theorem replGo_skip_append (pat rep : List Char) :
    ∀ (xs l : List Char), replGo pat rep xs.length (xs ++ l) = replGo pat rep 0 l := by
  intro xs
  induction xs with
  | nil => intro l; rfl
  | cons x xs ih =>
    intro l
    simp only [List.length_cons, List.cons_append]
    rw [replGo]
    exact ih l

theorem replGo_cons_match (pat rep l : List Char) (hne : pat ≠ []) :
    replGo pat rep 0 (pat ++ l) = rep ++ replGo pat rep 0 l := by
  match pat, hne with
  | p :: ps, _ =>
    simp only [List.cons_append]
    rw [replGo, if_pos]
    · have hlen : (p :: ps).length - 1 = ps.length := by simp
      rw [hlen, replGo_skip_append]
    · simp [hasPfx, hasPfx_append]

theorem replGo_id_of_not_contains (pat rep : List Char) :
    ∀ l, containsSub pat l = false → replGo pat rep 0 l = l := by
  intro l
  induction l with
  | nil => intro _; rfl
  | cons c rest ih =>
    intro h
    simp only [containsSub, Bool.or_eq_false_iff] at h
    rw [replGo, if_neg, ih h.2]
    simp [h.1]

theorem replGo_length_le (pat : List Char) :
    ∀ (l : List Char) (k : Nat), (replGo pat [] k l).length ≤ l.length := by
  intro l
  induction l with
  | nil => intro k; cases k <;> simp [replGo]
  | cons c rest ih =>
    intro k
    cases k with
    | zero =>
      rw [replGo]
      split
      · simpa using Nat.le_trans (ih (pat.length - 1)) (Nat.le_succ _)
      · simpa [List.length_cons] using Nat.succ_le_succ (ih 0)
    | succ k =>
      rw [replGo]
      simpa using Nat.le_trans (ih k) (Nat.le_succ _)

theorem replGo_length_lt (pat : List Char) (hp : pat ≠ []) :
    ∀ l, containsSub pat l = true → (replGo pat [] 0 l).length < l.length := by
  intro l
  induction l with
  | nil =>
    intro h
    match pat, hp with
    | p :: ps, _ => simp [containsSub, hasPfx] at h
  | cons c rest ih =>
    intro h
    rw [replGo]
    split
    · rename_i hcond
      simpa using Nat.lt_succ_of_le (replGo_length_le pat rest (pat.length - 1))
    · rename_i hcond
      simp only [containsSub, Bool.or_eq_true] at h
      have hpfx : hasPfx pat (c :: rest) = false := by
        cases hh : hasPfx pat (c :: rest)
        · rfl
        · exfalso
          apply hcond
          simp only [Bool.and_eq_true, hh, and_true, decide_eq_true_eq]
          match pat, hp with
          | p :: ps, _ => simp
      have hrest : containsSub pat rest = true := by
        rcases h with h | h
        · rw [hpfx] at h; cases h
        · exact h
      simpa [List.length_cons] using Nat.succ_lt_succ (ih hrest)

/-- C9: the validator token-extraction step `auth_header.replace("Bearer
", "")` strips the scheme prefix and, beyond it, removes every
(leftmost, non-overlapping) occurrence of `"Bearer "` inside the
presented token `T`: the decoded value equals `T` exactly when `T` does
not contain `"Bearer "`, and differs from `T` whenever it does. -/
theorem validator_replaces_all_bearer (T : String) :
    extractBearerToken ("Bearer " ++ T) = pyReplace T "Bearer " "" ∧
    (containsSub "Bearer ".data T.data = false →
      extractBearerToken ("Bearer " ++ T) = T) ∧
    (containsSub "Bearer ".data T.data = true →
      extractBearerToken ("Bearer " ++ T) ≠ T) := by
  have hdat : replGo "Bearer ".data "".data 0 ("Bearer " ++ T).data
      = replGo "Bearer ".data "".data 0 T.data := by
    rw [String.data_append]
    have h := replGo_cons_match "Bearer ".data "".data T.data (by decide)
    simpa using h
  have hstrip : extractBearerToken ("Bearer " ++ T) = pyReplace T "Bearer " "" := by
    unfold extractBearerToken pyReplace
    rw [hdat]
  refine ⟨hstrip, ?_, ?_⟩
  · intro hnc
    rw [hstrip]
    unfold pyReplace
    rw [replGo_id_of_not_contains _ _ _ hnc]
  · intro hc
    rw [hstrip]
    intro he
    have hlen := replGo_length_lt "Bearer ".data (by decide) T.data hc
    have hdata := congrArg String.data he
    unfold pyReplace at hdata
    simp only at hdata
    rw [hdata] at hlen
    exact Nat.lt_irrefl _ hlen

/-- C9 witness: a token without an internal `"Bearer "` passes through
unchanged; one with an internal occurrence is altered. -/
theorem validator_replaces_all_bearer_witness :
    extractBearerToken ("Bearer " ++ "abc") = "abc" ∧
    extractBearerToken ("Bearer " ++ "xBearer y") ≠ "xBearer y" :=
  ⟨(validator_replaces_all_bearer "abc").2.1 (by decide),
   (validator_replaces_all_bearer "xBearer y").2.2 (by decide)⟩

/-! ### Claim C2 — the Claims Decoder is total and fails silently -/

/-- C2: `decode_jwt_payload` is a total function (it is a Lean `def`,
so it never raises); it strips a leading `"Bearer "` prefix
(`dropBearer`), splits on `.`, returns `none` whenever the segment
count differs from 3, and otherwise base64url-decodes the second
segment after padding restoration (`b64urlDecode` applies `padB64`)
and hands the bytes to the JSON parser, with `none` on any decode or
parse failure. -/
theorem claims_decoder_characterization (parse : List Nat → Option JVal) (t : String) :
    ((splitSep ['.'] (dropBearer t.data)).length ≠ 3 →
        decode_jwt_payload parse t = none) ∧
    (∀ h p s : List Char, splitSep ['.'] (dropBearer t.data) = [h, p, s] →
        decode_jwt_payload parse t = (b64urlDecode p).bind parse) ∧
    (∀ r : String, hasPfx "Bearer ".data r.data = false →
        decode_jwt_payload parse ("Bearer " ++ r) = decode_jwt_payload parse r) := by
  refine ⟨?_, ?_, ?_⟩
  · intro hlen
    unfold decode_jwt_payload
    split
    · rename_i h p s heq
      rw [heq] at hlen
      simp at hlen
    · rfl
  · intro h p s heq
    unfold decode_jwt_payload
    split
    · rename_i h0 p0 s0 heq0
      rw [heq] at heq0
      injection heq0 with e1 e2
      injection e2 with e2 e3
      subst e2
      cases hb : b64urlDecode p <;> simp [Option.bind]
    · rename_i hnone
      exact absurd heq (hnone h p s)
  · intro r hr
    unfold decode_jwt_payload dropBearer
    rw [String.data_append]
    rw [if_pos, if_neg]
    · rw [List.drop_left' (by decide : "Bearer ".data.length = 7)]
    · simp [hr]
    · simp [hasPfx]

/-- C2 witness: a two-segment string decodes to `none`; a well-formed
three-segment token decodes through base64url plus the parser; a
`Bearer `-prefixed token decodes like the bare token. -/
theorem claims_decoder_characterization_witness :
    decode_jwt_payload parseObjStub "a.b" = none ∧
    decode_jwt_payload parseObjStub "aaaa.WzFd.cccc"
      = (b64urlDecode "WzFd".data).bind parseObjStub ∧
    decode_jwt_payload parseObjStub ("Bearer " ++ "x.y.z")
      = decode_jwt_payload parseObjStub "x.y.z" :=
  ⟨(claims_decoder_characterization parseObjStub "a.b").1 (by decide),
   (claims_decoder_characterization parseObjStub "aaaa.WzFd.cccc").2.1
     "aaaa".data "WzFd".data "cccc".data (by decide),
   (claims_decoder_characterization parseObjStub "x.y.z").2.2 "x.y.z" (by decide)⟩

/-! ### Claim C1 — the Resource Validator state machine -/

theorem isFedStr_iff (v : JVal) : isFedStr v = true ↔ v = .str "FederatedAgent" := by
  cases v <;> simp [isFedStr]

/-- C1 counterexample: the claim says the validator rejects whenever
the bearer value is not decodable as a *three-segment* token.  The
four-segment token `e30.eyIi.OjF9.SIG` is not a three-segment token,
yet PyJWT loads it — header `e30` before the first dot, signature
`SIG` after the last, payload `eyIi.OjF9` in between with its dot
skipped by the non-strict base64 decoder — so the validator accepts
the request and the business logic runs. -/
theorem validator_accepts_four_segments :
    (splitSep ['.'] "e30.eyIi.OjF9.SIG".data).length = 4 ∧
    weatherRoute parseJwt4 bizStub "Bearer e30.eyIi.OjF9.SIG" = (200, "ok") := by
  constructor
  · decide
  · rfl

/-- C1 amended: `validate_token` rejects with 401 when the
Authorization header is absent (empty), when it lacks the `Bearer `
scheme, and when PyJWT's unverified decode of the extracted token
fails (fewer than two dots, undecodable base64url header, payload or
signature, or a non-object header or payload — the header being taken
before the first dot and the signature after the last, so some tokens
with more than three segments also decode); when the token decodes the
route runs the business logic on the attached claims context — whatever
its contents — whose `is_agent_identity` flag is exactly the test of
the `xms_frd` claim against the sentinel `"FederatedAgent"`. -/
theorem validator_state_machine (parse : List Nat → Option JVal)
    (business : TokenClaimsCtx → Nat × String) (h : String) :
    (h = "" → weatherRoute parse business h = (401, "Missing Authorization header")) ∧
    (h ≠ "" → hasPfx "Bearer ".data h.data = false →
      weatherRoute parse business h = (401, "Invalid Authorization format")) ∧
    (∀ m : String, hasPfx "Bearer ".data h.data = true →
      pyJwtDecode parse (extractBearerToken h) = .error m →
      weatherRoute parse business h = (401, "Invalid token format")) ∧
    (∀ claims : List (String × JVal), hasPfx "Bearer ".data h.data = true →
      pyJwtDecode parse (extractBearerToken h) = .ok claims →
      weatherRoute parse business h = business (mkTokenCtx claims) ∧
      ((mkTokenCtx claims).is_agent_identity = true ↔
        jGet claims "xms_frd" (.str "") = .str "FederatedAgent")) := by
  have hnonempty : h ≠ "" → h.data.isEmpty = false := by
    intro hne
    cases hd : h.data with
    | nil => exact absurd (String.ext hd) hne
    | cons a l => simp
  refine ⟨?_, ?_, ?_, ?_⟩
  · intro he
    subst he
    rfl
  · intro hne hpfx
    unfold weatherRoute validate_token
    rw [if_neg, if_pos]
    · simp [hpfx]
    · simp [hnonempty hne]
  · intro m hpfx hdec
    unfold weatherRoute validate_token
    rw [if_neg, if_neg]
    · rw [hdec]
    · simp [hpfx]
    · have : h.data.isEmpty = false := by
        cases hd : h.data with
        | nil => rw [hd] at hpfx; simp [hasPfx] at hpfx
        | cons a l => simp
      simp [this]
  · intro claims hpfx hdec
    constructor
    · unfold weatherRoute validate_token
      rw [if_neg, if_neg]
      · rw [hdec]
      · simp [hpfx]
      · have : h.data.isEmpty = false := by
          cases hd : h.data with
          | nil => rw [hd] at hpfx; simp [hasPfx] at hpfx
          | cons a l => simp
        simp [this]
    · unfold mkTokenCtx
      exact isFedStr_iff _

/-- C1 witness: the four states at concrete headers — missing header,
wrong scheme, undecodable token, and a decodable token that reaches the
business logic. -/
theorem validator_state_machine_witness :
    weatherRoute parseObjStub bizStub "" = (401, "Missing Authorization header") ∧
    weatherRoute parseObjStub bizStub "Token x" = (401, "Invalid Authorization format") ∧
    weatherRoute parseObjStub bizStub "Bearer x" = (401, "Invalid token format") ∧
    weatherRoute parseObjStub bizStub "Bearer aaaa.WzFd.cccc" = (200, "ok") :=
  ⟨(validator_state_machine parseObjStub bizStub "").1 rfl,
   (validator_state_machine parseObjStub bizStub "Token x").2.1 (by decide) (by decide),
   (validator_state_machine parseObjStub bizStub "Bearer x").2.2.1
     "Not enough segments" (by decide) rfl,
   ((validator_state_machine parseObjStub bizStub "Bearer aaaa.WzFd.cccc").2.2.2
     [] (by decide) rfl).1⟩

/-! ### Claim C8 — health endpoints -/

/-- C8 counterexample: the weather API health body has no
`agent_app_id` field at all, so the claim fails for that service. -/
theorem weather_health_lacks_app_id :
    lookupField healthWeatherApi "agent_app_id" = none := by decide

/-- C8 amended: every health body (none of the `/health` routes is
wrapped in `validate_token`, so none requires authentication) carries
`status = "healthy"` and a service name; the two agent services also
carry the truncated `agent_app_id`, but the weather API's health body
has no `agent_app_id` field. -/
theorem health_endpoints_fields (appId : String) :
    lookupField healthWeatherApi "status" = some "healthy" ∧
    lookupField (healthLlmAgent appId) "status" = some "healthy" ∧
    lookupField (healthLlmAgentAws appId) "status" = some "healthy" ∧
    lookupField healthWeatherApi "service" = some "Weather API" ∧
    lookupField (healthLlmAgent appId) "service" = some "LLM Weather Agent (LangChain)" ∧
    lookupField (healthLlmAgentAws appId) "service" = some "LLM Weather Agent (AWS Bedrock)" ∧
    lookupField (healthLlmAgent appId) "agent_app_id" = some (truncAppId appId) ∧
    lookupField (healthLlmAgentAws appId) "agent_app_id" = some (truncAppId appId) ∧
    lookupField healthWeatherApi "agent_app_id" = none :=
  ⟨rfl, rfl, rfl, rfl, rfl, rfl, rfl, rfl, rfl⟩

/-! ### Claim C7 — the Token Broker Client return value -/

/-- C7 counterexample: the same broker body yields different return
values under two claim-decode outcomes.  When the token payload decodes
to the truthy non-object JSON value `[1]`, building the display-claims
dictionary raises `AttributeError` and the client returns `None`
instead of the token; when the decode fails, the token is returned. -/
theorem broker_return_affected_by_decode :
    (get_agent_token parseArrStub (.ok brokerBodyArr)).2 = none ∧
    (get_agent_token parseNone (.ok brokerBodyArr)).2 = some "aaaa.WzFd.cccc" := by
  constructor <;> rfl

/-- C7 amended: on any broker exception the client returns `None`; on a
2xx body the client returns exactly the `authorizationHeader` field
(defaulting to the empty string) whenever the decode performed for
trace display is safe — that is, whenever it returns no claims, any
falsy value, or a claims object.  Only a truthy non-object decode
result (an `AttributeError` while building the display dictionary)
deviates, as the counterexample shows. -/
theorem broker_token_return_value (parse : List Nat → Option JVal)
    (resp : Except String (List (String × String))) :
    (∀ e : String, resp = .error e → (get_agent_token parse resp).2 = none) ∧
    (∀ body : List (String × String), resp = .ok body →
      displaySafe parse (brokerField body) = true →
      (get_agent_token parse resp).2 = some (brokerField body)) := by
  constructor
  · intro e he
    subst he
    rfl
  · intro body hb hsafe
    subst hb
    unfold displaySafe at hsafe
    cases hE : (brokerField body).data.isEmpty with
    | true => simp [get_agent_token, hE]
    | false =>
      cases hd : decode_jwt_payload parse (brokerField body) with
      | none => simp [get_agent_token, hE, hd]
      | some v =>
        cases ht : pyTruthy v with
        | false => simp [get_agent_token, hE, hd, ht]
        | true =>
          cases v with
          | obj o => simp [get_agent_token, hE, hd, ht]
          | null => simp [pyTruthy] at ht
          | bool b =>
            simp [hd, pyTruthy] at hsafe
            simp [pyTruthy, hsafe] at ht
          | num n =>
            simp [hd, pyTruthy] at hsafe
            simp [pyTruthy, hsafe] at ht
          | str s =>
            simp [hd, pyTruthy] at hsafe
            simp [pyTruthy, hsafe] at ht
          | arr l =>
            simp [hd, pyTruthy] at hsafe
            simp [pyTruthy, hsafe] at ht

/-- C7 witness: a 2xx broker body with the token field present returns
exactly that token string. -/
theorem broker_token_return_value_witness :
    (get_agent_token parseNone (Except.ok brokerBodyTok)).2 = some "tok" := by
  have h := (broker_token_return_value parseNone (.ok brokerBodyTok)).2 brokerBodyTok rfl
    (by decide)
  simpa using h

/-! ### Trace lemmas for the AWS pipeline -/

theorem gat_step_ne_rl (parse : List Nat → Option JVal)
    (resp : Except String (List (String × String))) :
    ∀ e ∈ (get_agent_token parse resp).1, e.step ≠ "0. RATE LIMIT" := by
  intro e he
  rcases resp with err | body
  · simp [get_agent_token] at he
    rcases he with rfl | rfl | rfl <;> simp
  · simp only [get_agent_token] at he
    split at he
    · simp at he
      rcases he with rfl | rfl <;> simp
    · split at he
      · simp at he
        rcases he with rfl | rfl <;> simp
      · split at he
        · split at he
          · simp at he
            rcases he with rfl | rfl | rfl <;> simp
          · simp at he
            rcases he with rfl | rfl | rfl <;> simp
        · simp at he
          rcases he with rfl | rfl <;> simp

theorem cwa_step_ne_rl (env : BedrockEnv) (city : String) :
    ∀ e ∈ (call_weather_api env city).1, e.step ≠ "0. RATE LIMIT" := by
  intro e he
  rcases henv : env.weatherResp with err | wd <;>
    simp [call_weather_api, henv] at he <;>
    rcases he with rfl | rfl | rfl <;> simp

theorem gwd_step_ne_rl (env : BedrockEnv) (city : String) :
    ∀ e ∈ (get_weather_data env city).1, e.step ≠ "0. RATE LIMIT" := by
  intro e he
  simp only [get_weather_data] at he
  split at he
  · simp at he
    rcases he with rfl | he
    · simp
    · exact gat_step_ne_rl _ _ e he
  · split at he
    · simp at he
      rcases he with rfl | he
      · simp
      · exact gat_step_ne_rl _ _ e he
    · split at he
      · simp at he
        rcases he with rfl | he | he
        · simp
        · exact gat_step_ne_rl _ _ e he
        · exact cwa_step_ne_rl _ _ e he
      · split at he
        · split at he
          · simp at he
            rcases he with rfl | he | he | rfl
            · simp
            · exact gat_step_ne_rl _ _ e he
            · exact cwa_step_ne_rl _ _ e he
            · simp
          · simp at he
            rcases he with rfl | he | he
            · simp
            · exact gat_step_ne_rl _ _ e he
            · exact cwa_step_ne_rl _ _ e he
        · simp at he
          rcases he with rfl | he | he
          · simp
          · exact gat_step_ne_rl _ _ e he
          · exact cwa_step_ne_rl _ _ e he

theorem pwlCore_logs_head (env : BedrockEnv) (q : String) :
    ∃ t, (pwlCore env q).logs = startEntry q :: t := by
  unfold pwlCore
  cases hc : env.createResult with
  | error e => exact ⟨_, rfl⟩
  | ok u =>
    cases hi : env.invokeResult with
    | error e => exact ⟨_, rfl⟩
    | ok msgs =>
      simp only
      split
      · exact ⟨_, rfl⟩
      · split
        · split
          · split
            · exact ⟨_, rfl⟩
            · exact ⟨_, rfl⟩
          · exact ⟨_, rfl⟩
        · exact ⟨_, rfl⟩

theorem pwlCore_no_rl (env : BedrockEnv) (q : String) :
    ∀ e ∈ (pwlCore env q).logs, e.step ≠ "0. RATE LIMIT" := by
  intro e he
  unfold pwlCore at he
  cases hcr : env.createResult with
  | error err =>
    rw [hcr] at he
    simp at he
    rcases he with rfl | rfl | rfl <;> simp
  | ok u =>
    rw [hcr] at he
    cases hir : env.invokeResult with
    | error err =>
      rw [hir] at he
      simp at he
      rcases he with rfl | rfl | rfl | rfl <;> simp
    | ok msgs =>
      rw [hir] at he
      simp only at he
      split at he
      · simp [List.mem_flatMap] at he
        rcases he with rfl | rfl | rfl | ⟨c, _, hc⟩ | rfl
        · simp
        · simp
        · simp
        · exact gwd_step_ne_rl _ _ e hc
        · simp
      · split at he
        · split at he
          · rename_i c0 heq
            rcases hgw : get_weather_data env (pyCapitalize c0) with ⟨tl, res⟩
            rw [hgw] at he
            rcases res with er | w
            · simp [List.mem_flatMap] at he
              rcases he with rfl | rfl | rfl | ⟨c, _, hc⟩ | rfl | rfl | he | rfl
              · simp
              · simp
              · simp
              · exact gwd_step_ne_rl _ _ e hc
              · simp
              · simp
              · have := gwd_step_ne_rl env (pyCapitalize c0) e
                rw [hgw] at this
                exact this he
              · simp
            · simp [List.mem_flatMap] at he
              rcases he with rfl | rfl | rfl | ⟨c, _, hc⟩ | rfl | rfl | he | rfl
              · simp
              · simp
              · simp
              · exact gwd_step_ne_rl _ _ e hc
              · simp
              · simp
              · have := gwd_step_ne_rl env (pyCapitalize c0) e
                rw [hgw] at this
                exact this he
              · simp
          · simp [List.mem_flatMap] at he
            rcases he with rfl | rfl | rfl | ⟨c, _, hc⟩ | rfl | rfl | rfl | rfl
            · simp
            · simp
            · simp
            · exact gwd_step_ne_rl _ _ e hc
            · simp
            · simp
            · simp
            · simp
        · simp [List.mem_flatMap] at he
          rcases he with rfl | rfl | rfl | ⟨c, _, hc⟩ | rfl | rfl
          · simp
          · simp
          · simp
          · exact gwd_step_ne_rl _ _ e hc
          · simp
          · simp

/-! ### Claim C10 — the rate-limit trace entry is wiped by the clear -/

/-- C10: when the rate limiter makes a mediated request wait, the
`0. RATE LIMIT` entry is appended to the still-uncleared previous
trace (`preClear`); the trace returned to the caller therefore always
starts with the `0. START` entry and never contains a rate-limit
entry. -/
theorem trace_rate_limit_cleared (env : BedrockEnv) (q : String)
    (init : List DebugEntry) (last now fin : Int) :
    (now - last < BEDROCK_RATE_LIMIT →
      (process_with_langchain env q init last now fin).preClear
        = init ++ [rateEntry (BEDROCK_RATE_LIMIT - (now - last))]) ∧
    (∃ t, (process_with_langchain env q init last now fin).logs = startEntry q :: t) ∧
    (∀ e ∈ (process_with_langchain env q init last now fin).logs,
      e.step ≠ "0. RATE LIMIT") := by
  refine ⟨?_, ?_, ?_⟩
  · intro hw
    simp [process_with_langchain, hw]
  · simpa [process_with_langchain] using pwlCore_logs_head env q
  · intro e he
    simp only [process_with_langchain] at he
    exact pwlCore_no_rl env q e he

/-- C10 witness: a concrete waiting request — the rate-limit entry
lands in the pre-clear trace; the returned trace starts with
`0. START` and carries no rate-limit entry. -/
theorem trace_rate_limit_cleared_witness :
    (process_with_langchain envCreateFails "hi" staleLogs 0 5 9).preClear
      = staleLogs ++ [rateEntry (BEDROCK_RATE_LIMIT - (5 - 0))] ∧
    (∀ e ∈ (process_with_langchain envCreateFails "hi" staleLogs 0 5 9).logs,
      e.step ≠ "0. RATE LIMIT") := by
  have h := trace_rate_limit_cleared envCreateFails "hi" staleLogs 0 5 9
  exact ⟨h.1 (by decide), h.2.2⟩

/-! ### Claim C3 — rate limiter timestamp discipline and spacing -/

/-- C3 counterexample: the claim says the timestamp is updated after
the backend call completes whether it succeeds or fails.  On a failing
call (`agent.invoke` raises at completion time 110) the timestamp stays
at its old value 0, and the immediately following mediated call starts
5 time units later — closer than the 20-unit minimum. -/
theorem rate_limiter_no_update_on_failure :
    (process_with_langchain envInvokeFails "weather" [] 0 100 110).success = false ∧
    (process_with_langchain envInvokeFails "weather" [] 0 100 110).newLast = 0 ∧
    (process_with_langchain envInvokeFails "weather" [] 0 100 110).newLast ≠ 110 ∧
    (process_with_langchain envInvokeFails "weather" []
        (process_with_langchain envInvokeFails "weather" [] 0 100 110).newLast 105 120).callStart
      - (process_with_langchain envInvokeFails "weather" [] 0 100 110).callStart = 5 ∧
    (5 : Int) < BEDROCK_RATE_LIMIT := by decide

/-- C3 amended: the last-call timestamp is written only at the end of a
`try` block that ran to completion — never before the call, and not at
all when the call fails; consequently, when the first of two
back-to-back mediated calls succeeds (and its completion timestamp is
not earlier than its call start), the second backend call starts at
least the 20-unit minimum after the first. -/
theorem rate_limiter_update_and_spacing (env1 env2 : BedrockEnv) (q1 q2 : String)
    (i1 i2 : List DebugEntry) (last now1 fin1 now2 fin2 : Int) :
    ((process_with_langchain env1 q1 i1 last now1 fin1).newLast = last ∨
      ((process_with_langchain env1 q1 i1 last now1 fin1).success = true ∧
        (process_with_langchain env1 q1 i1 last now1 fin1).newLast = fin1)) ∧
    ((process_with_langchain env1 q1 i1 last now1 fin1).success = true →
      (process_with_langchain env1 q1 i1 last now1 fin1).callStart ≤ fin1 →
      (process_with_langchain env1 q1 i1 last now1 fin1).callStart + BEDROCK_RATE_LIMIT ≤
        (process_with_langchain env2 q2 i2
          (process_with_langchain env1 q1 i1 last now1 fin1).newLast now2 fin2).callStart) := by
  constructor
  · cases h : (pwlCore env1 q1).ok
    · left
      simp [process_with_langchain, h]
    · right
      simp [process_with_langchain, h]
  · intro hs hle
    simp only [process_with_langchain] at hs hle ⊢
    rw [hs]
    simp only [if_true]
    split
    · split <;> omega
    · split <;> omega

/-- C3 amended witness: a concrete pair of back-to-back calls in which
the first succeeds; the second call starts 20 units after the first. -/
theorem rate_limiter_update_and_spacing_witness :
    (process_with_langchain envEmptyLoop "hello" [] 0 30 31).success = true ∧
    (process_with_langchain envEmptyLoop "hello" [] 0 30 31).callStart ≤ 31 ∧
    (process_with_langchain envEmptyLoop "hello" [] 0 30 31).callStart + BEDROCK_RATE_LIMIT ≤
      (process_with_langchain envEmptyLoop "hello" []
        (process_with_langchain envEmptyLoop "hello" [] 0 30 31).newLast 35 60).callStart := by
  have h := rate_limiter_update_and_spacing envEmptyLoop envEmptyLoop "hello" "hello"
    [] [] 0 30 31 35 60
  exact ⟨by decide, by decide, h.2 (by decide) (by decide)⟩

/-! ### Claim C4 — decision-loop fallback dispatch -/

/-- C4 counterexample: query `"weather"` contains a domain keyword and
the loop never invoked the tool, yet the dispatcher does not fall back
to the deterministic direct-mode extractor (which would yield
`"Seattle"`): the inline fallback extractor finds no city, the tool
chain is never called, and the loop's own answer is returned. -/
theorem dispatcher_fallback_not_direct_extractor :
    (process_with_langchain envLoopNoTool "weather" [] 0 100 110).response = "LOOPANS" ∧
    (∀ e ∈ (process_with_langchain envLoopNoTool "weather" [] 0 100 110).logs,
      e.step ≠ "1. TOOL CALLED") ∧
    extractCity "weather" = "Seattle" := by decide

/-- C4 amended: in decision-loop mode, when the loop invoked the tool
its own answer is returned unmodified; when it did not and no keyword
matches, its answer is also kept; when keywords match, the dispatcher
runs the *inline* fallback extractor (substring `" in "`/`" for "`
splits on the lower-cased query, else the last word when there are at
least two words, capitalized) — if it finds a city the tool chain is
called directly and its result overrides the loop's answer, otherwise
the loop's answer is kept. -/
theorem dispatcher_fallback_behavior (env : BedrockEnv) (q : String)
    (init : List DebugEntry) (last now fin : Int)
    (msgs : List (String × List (Option String)))
    (hc : env.createResult = .ok ()) (hi : env.invokeResult = .ok msgs) :
    (loopToolCalled msgs = true →
      (process_with_langchain env q init last now fin).response = lastContent msgs) ∧
    (loopToolCalled msgs = false → kwMatch q = false →
      (process_with_langchain env q init last now fin).response = lastContent msgs) ∧
    (loopToolCalled msgs = false → kwMatch q = true → awsCity q = none →
      (process_with_langchain env q init last now fin).response = lastContent msgs) ∧
    (∀ c w, loopToolCalled msgs = false → kwMatch q = true → awsCity q = some c →
      (get_weather_data env (pyCapitalize c)).2 = .ok w →
      (process_with_langchain env q init last now fin).response = w) ∧
    (∀ c er, loopToolCalled msgs = false → kwMatch q = true → awsCity q = some c →
      (get_weather_data env (pyCapitalize c)).2 = .error er →
      (process_with_langchain env q init last now fin).response = "Agent error: " ++ er) := by
  refine ⟨?_, ?_, ?_, ?_, ?_⟩
  · intro ht
    simp [process_with_langchain, pwlCore, hc, hi, ht]
  · intro ht hk
    simp [process_with_langchain, pwlCore, hc, hi, ht, hk]
  · intro ht hk ha
    simp [process_with_langchain, pwlCore, hc, hi, ht, hk, ha]
  · intro c w ht hk ha hw
    rcases hgw : get_weather_data env (pyCapitalize c) with ⟨tl, res⟩
    rw [hgw] at hw
    simp only at hw
    subst hw
    simp [process_with_langchain, pwlCore, hc, hi, ht, hk, ha, hgw]
  · intro c er ht hk ha hw
    rcases hgw : get_weather_data env (pyCapitalize c) with ⟨tl, res⟩
    rw [hgw] at hw
    simp only at hw
    subst hw
    simp [process_with_langchain, pwlCore, hc, hi, ht, hk, ha, hgw]

/-- C4 amended witness: query `"weather in Dallas"`, loop answer kept
aside; the inline extractor finds `"dallas"`, capitalizes it, and the
tool chain's result (here its broker-failure message, since the broker
oracle is down) becomes the response, overriding `"LOOPANS"`. -/
theorem dispatcher_fallback_behavior_witness :
    (process_with_langchain envLoopNoTool "weather in Dallas" [] 0 100 110).response
      = "Error: Could not authenticate with Agent Identity. The sidecar may not be running." :=
  (dispatcher_fallback_behavior envLoopNoTool "weather in Dallas" [] 0 100 110
      [("LOOPANS", [])] rfl rfl).2.2.2.1 "dallas"
    "Error: Could not authenticate with Agent Identity. The sidecar may not be running."
    (by decide) (by decide) (by decide) rfl

end AgentIdDemo
